import Mathlib

/-!
Shallow embedding of the Stylus `TimelockWallet` contract (src/src/lib.rs).

Addresses are modelled as `Nat` with `0` standing for `Address::ZERO`, and
`U256` values as `Nat` (the contract performs no arithmetic on them, only
comparisons and copies, so no overflow site exists).  Each entry point is a
pure function of the stored state and of the ambient host context it reads
(`msg_sender`, `block.timestamp`, `msg_value`, the contract's balance, and
the result of `transfer_eth`).  Besides the returned outcome and the updated
storage, every call yields the ordered trace of host effects it performed
(storage writes, the balance read, the value transfer, event logs), which is
what the ordering, framing and atomicity claims are about.
-/

namespace Timelock

/-- Events of the contract (the `sol!` block): `Deposit(from, amount)` and
`Withdrawal(to, amount)`. -/
inductive Event where
  | deposit (fromAddr : Nat) (amount : Nat)
  | withdrawal (toAddr : Nat) (amount : Nat)
deriving DecidableEq, Repr

/-- Host effects a call can perform, in the order the code performs them. -/
inductive Action where
  | readBalance
  | writeOwner (v : Nat)
  | writeUnlock (v : Nat)
  | transferEth (toAddr : Nat) (amount : Nat)
  | log (e : Event)
deriving DecidableEq, Repr

/-- The contract's error values (the `sol!` block), plus `propagated` for
error bytes forwarded from a failed `transfer_eth` by the `?` operator. -/
inductive Err where
  | NotOwner
  | FundsLocked
  | ZeroBalance
  | AlreadyInitialized
  | NotInitialized
  | propagated (bytes : List Nat)
deriving DecidableEq, Repr

/-- The `Result<(), Vec<u8>>` returned by each entry point. -/
inductive CallOutcome where
  | ok
  | err (e : Err)
deriving DecidableEq, Repr

/-- Whether the call returned `Ok(())`. -/
def CallOutcome.isOk : CallOutcome → Bool
  | CallOutcome.ok => true
  | CallOutcome.err _ => false

/-- The persistent storage of the contract (`sol_storage!` block):
`address owner; uint256 unlock_timestamp;`. -/
structure TimelockWallet where
  owner : Nat
  unlock_timestamp : Nat
deriving DecidableEq, Repr

/-- Outcome, resulting storage, and trace of host effects of one call. -/
abbrev CallResult := CallOutcome × TimelockWallet × List Action

/-- `TimelockWallet::init(unlock_timestamp)`: rejects when `owner` is already
set, otherwise writes `owner := msg_sender` then
`unlock_timestamp := unlock_timestamp`. -/
def TimelockWallet.init (self : TimelockWallet) (msgSender : Nat)
    (unlock_timestamp : Nat) : CallResult :=
  if self.owner ≠ 0 then
    (CallOutcome.err Err.AlreadyInitialized, self, [])
  else
    (CallOutcome.ok,
     { owner := msgSender, unlock_timestamp := unlock_timestamp },
     [Action.writeOwner msgSender, Action.writeUnlock unlock_timestamp])

/-- `TimelockWallet::deposit()` (payable, `&self`): rejects when
uninitialized, otherwise logs `Deposit(msg_sender, msg_value)`. -/
def TimelockWallet.deposit (self : TimelockWallet) (msgSender : Nat)
    (msgValue : Nat) : CallResult :=
  if self.owner = 0 then
    (CallOutcome.err Err.NotInitialized, self, [])
  else
    (CallOutcome.ok, self, [Action.log (Event.deposit msgSender msgValue)])

/-- `TimelockWallet::withdraw(toAddr)`: checks initialization, then ownership,
then the time lock, only then reads the contract balance and checks it is
nonzero, then calls `transfer_eth(to, balance)` (whose failure, modelled by
`transferResult = some e`, is propagated by `?`), and finally logs
`Withdrawal(to, balance)`. -/
def TimelockWallet.withdraw (self : TimelockWallet) (msgSender : Nat)
    (blockTimestamp : Nat) (balance : Nat) (transferResult : Option (List Nat))
    (toAddr : Nat) : CallResult :=
  if self.owner = 0 then
    (CallOutcome.err Err.NotInitialized, self, [])
  else if msgSender ≠ self.owner then
    (CallOutcome.err Err.NotOwner, self, [])
  else if blockTimestamp < self.unlock_timestamp then
    (CallOutcome.err Err.FundsLocked, self, [])
  else if balance = 0 then
    (CallOutcome.err Err.ZeroBalance, self, [Action.readBalance])
  else
    match transferResult with
    | some e =>
        (CallOutcome.err (Err.propagated e), self,
         [Action.readBalance, Action.transferEth toAddr balance])
    | none =>
        (CallOutcome.ok, self,
         [Action.readBalance, Action.transferEth toAddr balance,
          Action.log (Event.withdrawal toAddr balance)])

/-- `TimelockWallet::extend_lock(new_unlock)`: checks initialization, then
ownership, then `new_unlock > unlock_timestamp` (rejecting with the reused
`FundsLocked` tag), then writes `unlock_timestamp := new_unlock`. -/
def TimelockWallet.extend_lock (self : TimelockWallet) (msgSender : Nat)
    (new_unlock : Nat) : CallResult :=
  if self.owner = 0 then
    (CallOutcome.err Err.NotInitialized, self, [])
  else if msgSender ≠ self.owner then
    (CallOutcome.err Err.NotOwner, self, [])
  else if new_unlock ≤ self.unlock_timestamp then
    (CallOutcome.err Err.FundsLocked, self, [])
  else
    (CallOutcome.ok, { self with unlock_timestamp := new_unlock },
     [Action.writeUnlock new_unlock])

/-- `TimelockWallet::unlock_time()`: pure read of `unlock_timestamp`.
(`TimelockWallet::owner()` is likewise the pure read of the `owner` field,
given by the structure projection `TimelockWallet.owner`.) -/
def TimelockWallet.unlock_time (self : TimelockWallet) : Nat :=
  self.unlock_timestamp

/-- Total amount moved out of the pool by the transfers in a trace. -/
def transferredTotal : List Action → Nat
  | [] => 0
  | Action.transferEth _ a :: rest => a + transferredTotal rest
  | _ :: rest => transferredTotal rest

/-- Pool balance after a call, as maintained by the host ledger: the balance
read at call time minus everything the call transferred out. -/
def balanceAfter (balance : Nat) (acts : List Action) : Nat :=
  balance - transferredTotal acts

/-- Whether an action is a persistent-storage write. -/
def Action.isStorageWrite : Action → Bool
  | Action.writeOwner _ => true
  | Action.writeUnlock _ => true
  | _ => false

/-- The storage writes performed in a trace. -/
def storageWrites (acts : List Action) : List Action :=
  acts.filter Action.isStorageWrite

/-- The events logged in a trace, in order. -/
def emittedEvents : List Action → List Event
  | [] => []
  | Action.log e :: rest => e :: emittedEvents rest
  | _ :: rest => emittedEvents rest

end Timelock

namespace Timelock

/-- Claim C1: for every initialized wallet, when `withdraw(toAddr)` is called by
the owner at a time at least `unlock_time` with pool balance `B > 0` and the
host performs the transfer, the call succeeds, transfers exactly `B` to `toAddr`
(which may differ from the owner), emits `Withdrawal(to, B)`, and the pool
balance is `0` afterward. -/
theorem withdraw_success_drains_pool (st : TimelockWallet)
    (msgSender now balance toAddr : Nat) (hinit : st.owner ≠ 0)
    (hown : msgSender = st.owner) (htime : st.unlock_time ≤ now)
    (hbal : 0 < balance) :
    st.withdraw msgSender now balance none toAddr =
      (CallOutcome.ok, st,
       [Action.readBalance, Action.transferEth toAddr balance,
        Action.log (Event.withdrawal toAddr balance)]) ∧
    emittedEvents (st.withdraw msgSender now balance none toAddr).2.2 =
      [Event.withdrawal toAddr balance] ∧
    balanceAfter balance (st.withdraw msgSender now balance none toAddr).2.2 = 0 := by
  have hb : balance ≠ 0 := Nat.pos_iff_ne_zero.mp hbal
  have ht : ¬ now < st.unlock_timestamp := Nat.not_lt.mpr htime
  constructor
  · simp [TimelockWallet.withdraw, hinit, hown, ht, hb]
  · constructor
    · simp [TimelockWallet.withdraw, hinit, hown, ht, hb, emittedEvents]
    · simp [TimelockWallet.withdraw, hinit, hown, ht, hb, balanceAfter,
        transferredTotal]

/-- Witness for C1 at a concrete input: wallet owned by address 1 unlocking
at time 10, withdrawal by the owner at time 10 of a balance of 5 to
address 2. -/
theorem withdraw_success_drains_pool_witness :
    TimelockWallet.withdraw ⟨1, 10⟩ 1 10 5 none 2 =
      (CallOutcome.ok, ⟨1, 10⟩,
       [Action.readBalance, Action.transferEth 2 5,
        Action.log (Event.withdrawal 2 5)]) ∧
    emittedEvents (TimelockWallet.withdraw ⟨1, 10⟩ 1 10 5 none 2).2.2 =
      [Event.withdrawal 2 5] ∧
    balanceAfter 5 (TimelockWallet.withdraw ⟨1, 10⟩ 1 10 5 none 2).2.2 = 0 :=
  withdraw_success_drains_pool ⟨1, 10⟩ 1 10 5 2 (by decide) rfl (by decide)
    (by decide)

/-- Claim C2: `withdraw` checks its preconditions in this exact order and
returns the error of the first one violated: `NotInitialized` when the owner
is the zero sentinel; else `NotOwner` when the caller is not the owner; else
`FundsLocked` when the time is strictly before `unlock_time`; else
`ZeroBalance` when the balance is zero; and the balance is read only after
all earlier checks have passed (no `readBalance` effect occurs, and the
result does not depend on the balance, when an earlier check fails). -/
theorem withdraw_check_order (st : TimelockWallet)
    (msgSender now balance toAddr : Nat) (tr : Option (List Nat)) :
    (st.owner = 0 →
      st.withdraw msgSender now balance tr toAddr =
        (CallOutcome.err Err.NotInitialized, st, [])) ∧
    (st.owner ≠ 0 → msgSender ≠ st.owner →
      st.withdraw msgSender now balance tr toAddr =
        (CallOutcome.err Err.NotOwner, st, [])) ∧
    (st.owner ≠ 0 → msgSender = st.owner → now < st.unlock_timestamp →
      st.withdraw msgSender now balance tr toAddr =
        (CallOutcome.err Err.FundsLocked, st, [])) ∧
    (st.owner ≠ 0 → msgSender = st.owner → st.unlock_timestamp ≤ now →
      balance = 0 →
      st.withdraw msgSender now balance tr toAddr =
        (CallOutcome.err Err.ZeroBalance, st, [Action.readBalance])) ∧
    (∀ b1 b2 : Nat,
      st.owner = 0 ∨ msgSender ≠ st.owner ∨ now < st.unlock_timestamp →
      st.withdraw msgSender now b1 tr toAddr =
        st.withdraw msgSender now b2 tr toAddr) := by
  refine ⟨?_, ?_, ?_, ?_, ?_⟩
  · intro h0
    simp [TimelockWallet.withdraw, h0]
  · intro h0 hs
    simp [TimelockWallet.withdraw, h0, hs]
  · intro h0 hs ht
    simp [TimelockWallet.withdraw, h0, hs, ht]
  · intro h0 hs ht hb
    simp [TimelockWallet.withdraw, h0, hs, Nat.not_lt.mpr ht, hb]
  · intro b1 b2 hcase
    rcases hcase with h0 | hs | ht
    · simp [TimelockWallet.withdraw, h0]
    · by_cases h0 : st.owner = 0
      · simp [TimelockWallet.withdraw, h0]
      · simp [TimelockWallet.withdraw, h0, hs]
    · by_cases h0 : st.owner = 0
      · simp [TimelockWallet.withdraw, h0]
      · by_cases hs : msgSender = st.owner
        · simp [TimelockWallet.withdraw, h0, hs, ht]
        · simp [TimelockWallet.withdraw, h0, hs]

/-- Witness for C2 at concrete inputs: one call per precondition case, on
wallets and environments that trigger exactly that case. -/
theorem withdraw_check_order_witness :
    TimelockWallet.withdraw ⟨0, 5⟩ 1 0 7 none 2 =
      (CallOutcome.err Err.NotInitialized, ⟨0, 5⟩, []) ∧
    TimelockWallet.withdraw ⟨1, 5⟩ 2 9 7 none 2 =
      (CallOutcome.err Err.NotOwner, ⟨1, 5⟩, []) ∧
    TimelockWallet.withdraw ⟨1, 5⟩ 1 4 7 none 2 =
      (CallOutcome.err Err.FundsLocked, ⟨1, 5⟩, []) ∧
    TimelockWallet.withdraw ⟨1, 5⟩ 1 9 0 none 2 =
      (CallOutcome.err Err.ZeroBalance, ⟨1, 5⟩, [Action.readBalance]) ∧
    TimelockWallet.withdraw ⟨1, 5⟩ 1 4 7 none 2 =
      TimelockWallet.withdraw ⟨1, 5⟩ 1 4 123 none 2 :=
  ⟨(withdraw_check_order ⟨0, 5⟩ 1 0 7 2 none).1 rfl,
   (withdraw_check_order ⟨1, 5⟩ 2 9 7 2 none).2.1 (by decide) (by decide),
   (withdraw_check_order ⟨1, 5⟩ 1 4 7 2 none).2.2.1 (by decide) rfl
     (by decide),
   (withdraw_check_order ⟨1, 5⟩ 1 9 0 2 none).2.2.2.1 (by decide) rfl
     (by decide) rfl,
   (withdraw_check_order ⟨1, 5⟩ 1 4 0 2 none).2.2.2.2 7 123
     (Or.inr (Or.inr (by decide)))⟩

/-- Claim C7: if the value transfer inside `withdraw` fails (modelled by
`transferResult = some e`), the whole call fails, no `Withdrawal` event is
emitted, and the stored fields are exactly as before the call. -/
theorem withdraw_transfer_failure_atomic (st : TimelockWallet)
    (msgSender now balance toAddr : Nat) (e : List Nat) :
    (st.withdraw msgSender now balance (some e) toAddr).1.isOk = false ∧
    (st.withdraw msgSender now balance (some e) toAddr).2.1 = st ∧
    emittedEvents (st.withdraw msgSender now balance (some e) toAddr).2.2 =
      [] := by
  unfold TimelockWallet.withdraw
  by_cases h0 : st.owner = 0
  · simp [h0, CallOutcome.isOk, emittedEvents]
  · by_cases hs : msgSender = st.owner
    · by_cases ht : now < st.unlock_timestamp
      · simp [h0, hs, ht, CallOutcome.isOk, emittedEvents]
      · by_cases hb : balance = 0
        · simp [h0, hs, ht, hb, CallOutcome.isOk, emittedEvents]
        · simp [h0, hs, ht, hb, CallOutcome.isOk, emittedEvents]
    · simp [h0, hs, CallOutcome.isOk, emittedEvents]

/-- Claim C8: for every initialized wallet, `deposit` by any identity with
any attached amount (including zero) succeeds and emits
`Deposit(caller, amount)`; on an uninitialized wallet it fails with
`NotInitialized`. -/
theorem deposit_behavior (st : TimelockWallet) (msgSender msgValue : Nat) :
    (st.owner ≠ 0 →
      st.deposit msgSender msgValue =
        (CallOutcome.ok, st,
         [Action.log (Event.deposit msgSender msgValue)]) ∧
      emittedEvents (st.deposit msgSender msgValue).2.2 =
        [Event.deposit msgSender msgValue]) ∧
    (st.owner = 0 →
      st.deposit msgSender msgValue =
        (CallOutcome.err Err.NotInitialized, st, [])) := by
  constructor
  · intro h0
    simp [TimelockWallet.deposit, h0, emittedEvents]
  · intro h0
    simp [TimelockWallet.deposit, h0]

/-- Witness for C8 at concrete inputs: a zero-amount deposit by a non-owner
on an initialized wallet, and a deposit on an uninitialized wallet. -/
theorem deposit_behavior_witness :
    (TimelockWallet.deposit ⟨1, 5⟩ 2 0 =
       (CallOutcome.ok, ⟨1, 5⟩, [Action.log (Event.deposit 2 0)]) ∧
     emittedEvents (TimelockWallet.deposit ⟨1, 5⟩ 2 0).2.2 =
       [Event.deposit 2 0]) ∧
    TimelockWallet.deposit ⟨0, 5⟩ 2 3 =
      (CallOutcome.err Err.NotInitialized, ⟨0, 5⟩, []) :=
  ⟨(deposit_behavior ⟨1, 5⟩ 2 0).1 (by decide),
   (deposit_behavior ⟨0, 5⟩ 2 3).2 rfl⟩

/-- Counterexample to claim C3 as stated for every wallet state and caller.
First input: initialized wallet with owner 5 and unlock time 10; caller 3
(not the owner) calls `extend_lock(7)` with `7 ≤ 10`, and the call fails
with `NotOwner`, not with the claimed `FundsLocked` tag.  Second input:
uninitialized wallet (owner = 0 = zero sentinel); caller 0 equals `owner()`
and `1 > 0 = unlock_time()`, yet the call fails (`NotInitialized`) instead
of succeeding as the claimed equivalence requires. -/
theorem extend_lock_claim_counterexample :
    (TimelockWallet.extend_lock ⟨5, 10⟩ 3 7 =
       (CallOutcome.err Err.NotOwner, ⟨5, 10⟩, []) ∧
     (7 : Nat) ≤ TimelockWallet.unlock_time ⟨5, 10⟩ ∧
     Err.NotOwner ≠ Err.FundsLocked) ∧
    (TimelockWallet.extend_lock ⟨0, 0⟩ 0 1 =
       (CallOutcome.err Err.NotInitialized, ⟨0, 0⟩, []) ∧
     TimelockWallet.owner ⟨0, 0⟩ = 0 ∧
     TimelockWallet.unlock_time ⟨0, 0⟩ < 1) := by
  decide

/-- Claim C3, amended: for every initialized wallet (owner not the zero
sentinel), caller and argument, `extend_lock(new_unlock)` succeeds iff the
caller equals `owner()` and `new_unlock > unlock_time()`; on success
`unlock_time()` becomes exactly `new_unlock`; and when the caller is the
owner and `new_unlock ≤ unlock_time()` the call fails with the reused
`FundsLocked` error tag. -/
theorem extend_lock_behavior (st : TimelockWallet) (msgSender new_unlock : Nat)
    (h0 : st.owner ≠ 0) :
    ((st.extend_lock msgSender new_unlock).1 = CallOutcome.ok ↔
      msgSender = st.owner ∧ st.unlock_timestamp < new_unlock) ∧
    (msgSender = st.owner → st.unlock_timestamp < new_unlock →
      st.extend_lock msgSender new_unlock =
        (CallOutcome.ok, { st with unlock_timestamp := new_unlock },
         [Action.writeUnlock new_unlock]) ∧
      (st.extend_lock msgSender new_unlock).2.1.unlock_time = new_unlock) ∧
    (msgSender = st.owner → new_unlock ≤ st.unlock_timestamp →
      st.extend_lock msgSender new_unlock =
        (CallOutcome.err Err.FundsLocked, st, [])) := by
  refine ⟨?_, ?_, ?_⟩
  · by_cases hs : msgSender = st.owner
    · by_cases hn : new_unlock ≤ st.unlock_timestamp
      · simp [TimelockWallet.extend_lock, h0, hs, hn, Nat.not_lt.mpr hn]
      · simp [TimelockWallet.extend_lock, h0, hs, hn, Nat.not_le.mp hn]
    · simp [TimelockWallet.extend_lock, h0, hs]
  · intro hs hn
    simp [TimelockWallet.extend_lock, TimelockWallet.unlock_time, h0, hs,
      Nat.not_le.mpr hn]
  · intro hs hn
    simp [TimelockWallet.extend_lock, h0, hs, hn]

/-- Witness for the amended C3 at concrete inputs: owner 1 of a wallet
unlocking at 5 extends the lock to 9 (success) and attempts to shorten it
to 4 (rejected with the `FundsLocked` tag). -/
theorem extend_lock_behavior_witness :
    ((TimelockWallet.extend_lock ⟨1, 5⟩ 1 9).1 = CallOutcome.ok ↔
      (1 : Nat) = 1 ∧ (5 : Nat) < 9) ∧
    (TimelockWallet.extend_lock ⟨1, 5⟩ 1 9 =
       (CallOutcome.ok, ⟨1, 9⟩, [Action.writeUnlock 9]) ∧
     (TimelockWallet.extend_lock ⟨1, 5⟩ 1 9).2.1.unlock_time = 9) ∧
    TimelockWallet.extend_lock ⟨1, 5⟩ 1 4 =
      (CallOutcome.err Err.FundsLocked, ⟨1, 5⟩, []) :=
  ⟨(extend_lock_behavior ⟨1, 5⟩ 1 9 (by decide)).1,
   (extend_lock_behavior ⟨1, 5⟩ 1 9 (by decide)).2.1 rfl (by decide),
   (extend_lock_behavior ⟨1, 5⟩ 1 4 (by decide)).2.2 rfl (by decide)⟩

/-- Counterexample to claim C4 as stated for every caller: on a fresh
wallet, `init(5)` called by the zero-sentinel identity 0 returns `Ok`, yet
the subsequent `init(3)` by caller 1 also returns `Ok` instead of failing
with `AlreadyInitialized`, and it changes both fields. -/
theorem init_once_counterexample :
    TimelockWallet.init ⟨0, 0⟩ 0 5 =
      (CallOutcome.ok, ⟨0, 5⟩, [Action.writeOwner 0, Action.writeUnlock 5]) ∧
    TimelockWallet.init ⟨0, 5⟩ 1 3 =
      (CallOutcome.ok, ⟨1, 3⟩, [Action.writeOwner 1, Action.writeUnlock 3]) := by
  decide

/-- Claim C4, amended: when the initializing caller `C` is not the zero
sentinel, `init` succeeds exactly once: after a successful `init(T)` by `C`
on a fresh wallet, `owner() = C` and `unlock_time() = T`, and every later
`init` call, from this or any other state whose owner is nonzero, fails with
`AlreadyInitialized` and leaves both fields unchanged. -/
theorem init_once (u T C : Nat) (hC : C ≠ 0) :
    TimelockWallet.init ⟨0, u⟩ C T =
      (CallOutcome.ok, ⟨C, T⟩, [Action.writeOwner C, Action.writeUnlock T]) ∧
    TimelockWallet.owner ⟨C, T⟩ = C ∧
    TimelockWallet.unlock_time ⟨C, T⟩ = T ∧
    (∀ C2 T2 : Nat,
      TimelockWallet.init ⟨C, T⟩ C2 T2 =
        (CallOutcome.err Err.AlreadyInitialized, ⟨C, T⟩, [])) ∧
    ∀ (st : TimelockWallet) (C2 T2 : Nat), st.owner ≠ 0 →
      st.init C2 T2 = (CallOutcome.err Err.AlreadyInitialized, st, []) := by
  refine ⟨?_, rfl, rfl, ?_, ?_⟩
  · simp [TimelockWallet.init]
  · intro C2 T2
    simp [TimelockWallet.init, hC]
  · intro st C2 T2 h0
    simp [TimelockWallet.init, h0]

/-- Witness for the amended C4 at concrete inputs: caller 1 initializes a
fresh wallet with unlock time 5; a second `init` by caller 2 fails. -/
theorem init_once_witness :
    TimelockWallet.init ⟨0, 0⟩ 1 5 =
      (CallOutcome.ok, ⟨1, 5⟩, [Action.writeOwner 1, Action.writeUnlock 5]) ∧
    TimelockWallet.init ⟨1, 5⟩ 2 3 =
      (CallOutcome.err Err.AlreadyInitialized, ⟨1, 5⟩, []) :=
  ⟨(init_once 0 5 1 (by decide)).1,
   (init_once 0 5 1 (by decide)).2.2.2.1 2 3⟩

/-- Counterexample to claim C5 as stated: after a first `init(5)` by the
zero-sentinel caller, the wallet is still uninitialized, so a second `init`
(not the first init) writes `unlock_time := 3`, strictly smaller than the
value 5 it currently holds. -/
theorem unlock_monotone_counterexample :
    TimelockWallet.init ⟨0, 0⟩ 0 5 =
      (CallOutcome.ok, ⟨0, 5⟩, [Action.writeOwner 0, Action.writeUnlock 5]) ∧
    Action.writeUnlock 3 ∈ (TimelockWallet.init ⟨0, 5⟩ 1 3).2.2 ∧
    (TimelockWallet.init ⟨0, 5⟩ 1 3).1 = CallOutcome.ok ∧
    (3 : Nat) < TimelockWallet.unlock_time ⟨0, 5⟩ := by
  decide

/-- Claim C5, amended: from every initialized state (owner not the zero
sentinel), whenever any operation writes `unlock_time` it writes a value
strictly larger than the value it currently holds, and the stored
`unlock_time` never decreases; only while the wallet is uninitialized can
`init` (possibly repeatedly, if the caller is the zero sentinel) set it
without constraint. -/
theorem unlock_time_monotone (st : TimelockWallet) (h0 : st.owner ≠ 0)
    (msgSender now balance msgValue arg new_unlock toAddr : Nat)
    (tr : Option (List Nat)) :
    (st.unlock_timestamp ≤ (st.init msgSender arg).2.1.unlock_timestamp ∧
     ∀ v, Action.writeUnlock v ∈ (st.init msgSender arg).2.2 →
       st.unlock_timestamp < v) ∧
    (st.unlock_timestamp ≤
       (st.deposit msgSender msgValue).2.1.unlock_timestamp ∧
     ∀ v, Action.writeUnlock v ∈ (st.deposit msgSender msgValue).2.2 →
       st.unlock_timestamp < v) ∧
    (st.unlock_timestamp ≤
       (st.withdraw msgSender now balance tr toAddr).2.1.unlock_timestamp ∧
     ∀ v, Action.writeUnlock v ∈
         (st.withdraw msgSender now balance tr toAddr).2.2 →
       st.unlock_timestamp < v) ∧
    (st.unlock_timestamp ≤
       (st.extend_lock msgSender new_unlock).2.1.unlock_timestamp ∧
     ∀ v, Action.writeUnlock v ∈ (st.extend_lock msgSender new_unlock).2.2 →
       st.unlock_timestamp < v) := by
  refine ⟨⟨?_, ?_⟩, ⟨?_, ?_⟩, ⟨?_, ?_⟩, ⟨?_, ?_⟩⟩
  · simp [TimelockWallet.init, h0]
  · simp [TimelockWallet.init, h0]
  · simp [TimelockWallet.deposit, h0]
  · simp [TimelockWallet.deposit, h0]
  · unfold TimelockWallet.withdraw
    by_cases hs : msgSender = st.owner
    · by_cases ht : now < st.unlock_timestamp
      · simp [h0, hs, ht]
      · by_cases hb : balance = 0
        · simp [h0, hs, ht, hb]
        · cases tr <;> simp [h0, hs, ht, hb]
    · simp [h0, hs]
  · unfold TimelockWallet.withdraw
    by_cases hs : msgSender = st.owner
    · by_cases ht : now < st.unlock_timestamp
      · simp [h0, hs, ht]
      · by_cases hb : balance = 0
        · simp [h0, hs, ht, hb]
        · cases tr <;> simp [h0, hs, ht, hb]
    · simp [h0, hs]
  · unfold TimelockWallet.extend_lock
    by_cases hs : msgSender = st.owner
    · by_cases hn : new_unlock ≤ st.unlock_timestamp
      · simp [h0, hs, hn]
      · simp [h0, hs, hn, Nat.le_of_lt (Nat.not_le.mp hn)]
    · simp [h0, hs]
  · unfold TimelockWallet.extend_lock
    by_cases hs : msgSender = st.owner
    · by_cases hn : new_unlock ≤ st.unlock_timestamp
      · simp [h0, hs, hn]
      · intro v hv
        simp [h0, hs, hn] at hv
        exact hv ▸ Nat.not_le.mp hn
    · simp [h0, hs]

/-- Witness for the amended C5 at a concrete input: owner 1, unlock time 5,
extension to 9 writes strictly larger value and does not decrease the
stored field. -/
theorem unlock_time_monotone_witness :
    TimelockWallet.unlock_timestamp ⟨1, 5⟩ ≤
      (TimelockWallet.extend_lock ⟨1, 5⟩ 1 9).2.1.unlock_timestamp ∧
    TimelockWallet.unlock_timestamp ⟨1, 5⟩ < 9 :=
  ⟨(unlock_time_monotone ⟨1, 5⟩ (by decide) 1 10 7 2 6 9 3 none).2.2.2.1,
   (unlock_time_monotone ⟨1, 5⟩ (by decide) 1 10 7 2 6 9 3 none).2.2.2.2 9
     (by decide)⟩

/-- Claim C6: for every wallet state whose owner is not the zero sentinel,
no operation changes the stored owner field (the reads `owner()` and
`unlock_time()` are pure in the embedding and touch no storage, so the four
mutating entry points are the only candidates). -/
theorem owner_never_changes (st : TimelockWallet) (h0 : st.owner ≠ 0)
    (msgSender now balance msgValue arg new_unlock toAddr : Nat)
    (tr : Option (List Nat)) :
    (st.init msgSender arg).2.1.owner = st.owner ∧
    (st.deposit msgSender msgValue).2.1.owner = st.owner ∧
    (st.withdraw msgSender now balance tr toAddr).2.1.owner = st.owner ∧
    (st.extend_lock msgSender new_unlock).2.1.owner = st.owner := by
  refine ⟨?_, ?_, ?_, ?_⟩
  · simp [TimelockWallet.init, h0]
  · simp [TimelockWallet.deposit, h0]
  · unfold TimelockWallet.withdraw
    by_cases hs : msgSender = st.owner
    · by_cases ht : now < st.unlock_timestamp
      · simp [h0, hs, ht]
      · by_cases hb : balance = 0
        · simp [h0, hs, ht, hb]
        · cases tr <;> simp [h0, hs, ht, hb]
    · simp [h0, hs]
  · unfold TimelockWallet.extend_lock
    by_cases hs : msgSender = st.owner
    · by_cases hn : new_unlock ≤ st.unlock_timestamp
      · simp [h0, hs, hn]
      · simp [h0, hs, hn]
    · simp [h0, hs]

/-- Witness for C6 at a concrete input: wallet owned by 1, one call of each
operation under an environment that exercises the successful paths. -/
theorem owner_never_changes_witness :
    (TimelockWallet.init ⟨1, 5⟩ 2 9).2.1.owner = TimelockWallet.owner ⟨1, 5⟩ ∧
    (TimelockWallet.deposit ⟨1, 5⟩ 2 4).2.1.owner =
      TimelockWallet.owner ⟨1, 5⟩ ∧
    (TimelockWallet.withdraw ⟨1, 5⟩ 1 10 7 none 3).2.1.owner =
      TimelockWallet.owner ⟨1, 5⟩ ∧
    (TimelockWallet.extend_lock ⟨1, 5⟩ 1 9).2.1.owner =
      TimelockWallet.owner ⟨1, 5⟩ :=
  owner_never_changes ⟨1, 5⟩ (by decide) 1 10 7 4 9 9 3 none

/-- Claim C9: `init` on an uninitialized wallet called by the zero-sentinel
identity returns `Ok` and sets `unlock_time` to the argument, but the owner
field remains the zero sentinel (the caller is written, and the caller is
zero), so the wallet is still treated as uninitialized and a later `init`
by any caller succeeds again, with a possibly smaller unlock time. -/
theorem init_by_zero_sender (u T c T2 : Nat) :
    TimelockWallet.init ⟨0, u⟩ 0 T =
      (CallOutcome.ok, ⟨0, T⟩, [Action.writeOwner 0, Action.writeUnlock T]) ∧
    TimelockWallet.owner ⟨0, T⟩ = 0 ∧
    TimelockWallet.unlock_time ⟨0, T⟩ = T ∧
    TimelockWallet.init ⟨0, T⟩ c T2 =
      (CallOutcome.ok, ⟨c, T2⟩, [Action.writeOwner c, Action.writeUnlock T2]) := by
  refine ⟨?_, rfl, rfl, ?_⟩ <;> simp [TimelockWallet.init]

/-- Claim C10: no operation writes persistent storage before all of its
precondition checks have passed: every `init`, `withdraw` or `extend_lock`
call that returns an error leaves the storage unchanged and its effect
trace contains no storage write, without relying on host rollback; and
`deposit` never writes storage at all (`owner()` and `unlock_time()` are
pure reads in the embedding and perform no effects). -/
theorem no_storage_write_on_error (st : TimelockWallet)
    (msgSender now balance msgValue arg new_unlock toAddr : Nat)
    (tr : Option (List Nat)) :
    ((st.init msgSender arg).1.isOk = false →
      (st.init msgSender arg).2.1 = st ∧
      storageWrites (st.init msgSender arg).2.2 = []) ∧
    ((st.withdraw msgSender now balance tr toAddr).1.isOk = false →
      (st.withdraw msgSender now balance tr toAddr).2.1 = st ∧
      storageWrites (st.withdraw msgSender now balance tr toAddr).2.2 = []) ∧
    ((st.extend_lock msgSender new_unlock).1.isOk = false →
      (st.extend_lock msgSender new_unlock).2.1 = st ∧
      storageWrites (st.extend_lock msgSender new_unlock).2.2 = []) ∧
    ((st.deposit msgSender msgValue).2.1 = st ∧
     storageWrites (st.deposit msgSender msgValue).2.2 = []) := by
  refine ⟨?_, ?_, ?_, ?_⟩
  · unfold TimelockWallet.init
    by_cases h0 : st.owner = 0
    · simp [h0, CallOutcome.isOk]
    · simp [h0, CallOutcome.isOk, storageWrites]
  · unfold TimelockWallet.withdraw
    by_cases h0 : st.owner = 0
    · simp [h0, CallOutcome.isOk, storageWrites, Action.isStorageWrite]
    · by_cases hs : msgSender = st.owner
      · by_cases ht : now < st.unlock_timestamp
        · simp [h0, hs, ht, CallOutcome.isOk, storageWrites,
            Action.isStorageWrite]
        · by_cases hb : balance = 0
          · simp [h0, hs, ht, hb, CallOutcome.isOk, storageWrites,
              Action.isStorageWrite]
          · cases tr <;>
              simp [h0, hs, ht, hb, CallOutcome.isOk, storageWrites,
                Action.isStorageWrite]
      · simp [h0, hs, CallOutcome.isOk, storageWrites, Action.isStorageWrite]
  · unfold TimelockWallet.extend_lock
    by_cases h0 : st.owner = 0
    · simp [h0, CallOutcome.isOk, storageWrites, Action.isStorageWrite]
    · by_cases hs : msgSender = st.owner
      · by_cases hn : new_unlock ≤ st.unlock_timestamp
        · simp [h0, hs, hn, CallOutcome.isOk, storageWrites,
            Action.isStorageWrite]
        · simp [h0, hs, hn, CallOutcome.isOk, storageWrites,
            Action.isStorageWrite]
      · simp [h0, hs, CallOutcome.isOk, storageWrites, Action.isStorageWrite]
  · unfold TimelockWallet.deposit
    by_cases h0 : st.owner = 0
    · simp [h0, storageWrites, Action.isStorageWrite]
    · simp [h0, storageWrites, Action.isStorageWrite]

/-- Witness for C10 at concrete inputs: an erring call of each of `init`
(already initialized), `withdraw` (wrong caller) and `extend_lock`
(shortening attempt), plus a successful `deposit`, each leaving storage
untouched with no write effect in its trace. -/
theorem no_storage_write_on_error_witness :
    ((TimelockWallet.init ⟨1, 5⟩ 2 9).2.1 = ⟨1, 5⟩ ∧
     storageWrites (TimelockWallet.init ⟨1, 5⟩ 2 9).2.2 = []) ∧
    ((TimelockWallet.withdraw ⟨1, 5⟩ 2 10 7 none 3).2.1 = ⟨1, 5⟩ ∧
     storageWrites (TimelockWallet.withdraw ⟨1, 5⟩ 2 10 7 none 3).2.2 = []) ∧
    ((TimelockWallet.extend_lock ⟨1, 5⟩ 1 4).2.1 = ⟨1, 5⟩ ∧
     storageWrites (TimelockWallet.extend_lock ⟨1, 5⟩ 1 4).2.2 = []) ∧
    ((TimelockWallet.deposit ⟨1, 5⟩ 2 4).2.1 = ⟨1, 5⟩ ∧
     storageWrites (TimelockWallet.deposit ⟨1, 5⟩ 2 4).2.2 = []) :=
  ⟨(no_storage_write_on_error ⟨1, 5⟩ 2 10 7 4 9 4 3 none).1 rfl,
   (no_storage_write_on_error ⟨1, 5⟩ 2 10 7 4 9 4 3 none).2.1 rfl,
   (no_storage_write_on_error ⟨1, 5⟩ 1 10 7 4 9 4 3 none).2.2.1 rfl,
   (no_storage_write_on_error ⟨1, 5⟩ 2 10 7 4 9 4 3 none).2.2.2⟩

end Timelock
